import Mathlib

/-!
Shallow embedding of the session-state logic of `src/frontend/src/App.jsx`
(the React component of the plant-recognition app).

React `useState` fields become the record `AppState`; each handler becomes a
pure state transformer.  The two `async` handlers (`handleSubmitDetection`,
`handleSubmitChat`) are split into a synchronous start phase (everything up to
the `axios.post`, returning the issued request, if any) and a resolve phase
(the code after the `await`, applied to whatever state is current when the
response arrives — plain `setX(v)` calls overwrite that current state, and the
functional `setChatMessages(prev => ...)` updates append to it).

JavaScript optional/falsy fields are modelled by `Option String`, where the
absent field is `none` and JS truthiness of a string is non-emptiness; an
absent string that JS would render as `undefined` is rendered as `""`.
-/

namespace Plant

/-- One entry of `plant_data` in a detection response (the fields rendered by
the component; `error` is the optional error flag tested with `!plant.error`). -/
structure PlantRecord where
  name : String
  scientific_name : String := ""
  common_name : String := ""
  local_name : String := ""
  family_name : String := ""
  medicinal_uses : String := ""
  error : Option String := none
  deriving DecidableEq

/-- Body of a successful `/predict` response: `{ annotated_image, plant_data }`;
`plant_data` may be absent (the code tests `response.data.plant_data &&`). -/
structure DetectionResponse where
  annotated_image : String := ""
  plant_data : Option (List PlantRecord) := none
  deriving DecidableEq

/-- The `sender` field of a chat message: `'user'` or `'bot'`. -/
inductive Sender
  | user
  | bot
  deriving DecidableEq

/-- One entry of the `chatMessages` list: `{ sender, text }`. -/
structure ChatMessage where
  sender : Sender
  text : String
  deriving DecidableEq

/-- Body of a successful `/chat` response: `{ response: string }` or
`{ error: string }` (either field may be absent). -/
structure ChatResponse where
  response : Option String := none
  error : Option String := none
  deriving DecidableEq

/-- The request issued by `handleSubmitDetection`: a POST of the selected file
to `/predict` (the file is identified by its name here). -/
structure DetectionRequest where
  file : String
  deriving DecidableEq

/-- The request issued by `handleSubmitChat`: a POST of
`{ plant_name, message }` to `/chat`. -/
structure ChatRequest where
  plant_name : String
  message : String
  deriving DecidableEq

/-- The `useState` fields of the `App` component.  A selected file is
identified by its name; `previewUrl` holds the object URL derived from it. -/
structure AppState where
  activeTab : String := "detect"
  selectedFile : Option String := none
  previewUrl : Option String := none
  isLoading : Bool := false
  error : Option String := none
  detectionResult : Option DetectionResponse := none
  chatPlantName : String := "your plant"
  chatInput : String := ""
  chatMessages : List ChatMessage := []
  isChatLoading : Bool := false
  isDark : Bool := false
  deriving DecidableEq

/-- The component's initial state (all `useState` defaults). -/
def initState : AppState := {}

/-- JS truthiness of an optional string field: absent or `""` is falsy. -/
def strTruthy : Option String → Bool
  | none => false
  | some s => !s.isEmpty

/-- JS `a || b` on two optional string fields, rendering an absent result as
`""` (as `undefined` would render in the message bubble). -/
def jsOrD (a b : Option String) : String :=
  match a with
  | some s => if s.isEmpty then b.getD "" else s
  | none => b.getD ""

/-- `String.prototype.trim`: strip leading and trailing whitespace. -/
def jsTrim (s : String) : String :=
  ⟨((s.data.dropWhile Char.isWhitespace).reverse.dropWhile Char.isWhitespace).reverse⟩

/-- `URL.createObjectURL(file)`. -/
def objectURL (f : String) : String := "blob:" ++ f

/-- Default chat plant name, the initial value of `chatPlantName` and the
fallback in `plant_data[0].name || 'your plant'`. -/
def defaultPlantName : String := "your plant"

/-- The seeded greeting for an identified plant (App.jsx line 99). -/
def greetingText (plantName : String) : String :=
  "I\x27ve identified " ++ plantName ++ ". Feel free to ask me any questions about it!"

/-- The seeded message when no plant was identified (App.jsx line 103). -/
def noIdentifyText : String :=
  "I couldn\x27t detect a specific plant, but you can still ask general questions."

/-- The banner message set when the detection call fails (App.jsx line 109). -/
def detectErrorText : String :=
  "An error occurred during detection. Is the backend server running?"

/-- The assistant message appended when the chat call fails (App.jsx line 137). -/
def chatRetryText : String :=
  "Sorry, I ran into an error. Please try again."

/-- `clearResults` (App.jsx lines 57-62). -/
def clearResults (s : AppState) : AppState :=
  { s with detectionResult := none, error := none, chatMessages := [],
           chatPlantName := defaultPlantName }

/-- `clearSelection` (App.jsx lines 64-71); the file-input reset has no state
field here. -/
def clearSelection (s : AppState) : AppState :=
  clearResults { s with selectedFile := none, previewUrl := none }

/-- `handleFileChange` (App.jsx lines 48-55): `e.target.files[0]` is the
optional file argument; absent when the user cancels the dialog. -/
def handleFileChange (s : AppState) (file : Option String) : AppState :=
  match file with
  | some f => clearResults { s with selectedFile := some f, previewUrl := some (objectURL f) }
  | none => s

/-- Synchronous part of `handleSubmitDetection` up to the `axios.post`
(App.jsx lines 74-89): guard on `!selectedFile`, set the loading flag, clear
error and previous result, and issue the request with the selected file. -/
def detectStart (s : AppState) : AppState × Option DetectionRequest :=
  match s.selectedFile with
  | none => (s, none)
  | some f =>
    ({ s with isLoading := true, error := none, detectionResult := none },
     some { file := f })

/-- Outcome of the detection request: a parsed success body, or a
transport/service error (the `catch` path). -/
inductive DetectionOutcome
  | success (resp : DetectionResponse)
  | failure
  deriving DecidableEq

/-- The branch of `handleSubmitDetection` seeding chat state from the response
(App.jsx lines 94-105): tests `plant_data && plant_data.length > 0 &&
!plant_data[0].error`, binds `plant_data[0].name || 'your plant'` and the
greeting, else the could-not-identify message. -/
def seedMessages (s : AppState) (resp : DetectionResponse) : AppState :=
  match resp.plant_data with
  | some (p :: _) =>
    if strTruthy p.error then
      { s with chatMessages := [{ sender := Sender.bot, text := noIdentifyText }] }
    else
      { s with chatPlantName := if p.name.isEmpty then defaultPlantName else p.name,
               chatMessages := [{ sender := Sender.bot,
                                  text := greetingText (if p.name.isEmpty then defaultPlantName else p.name) }] }
  | _ => { s with chatMessages := [{ sender := Sender.bot, text := noIdentifyText }] }

/-- `plant_data[0].name || 'your plant'` (App.jsx line 95). -/
def plantNameOf (p : PlantRecord) : String :=
  if p.name.isEmpty then defaultPlantName else p.name

/-- Continuation of `handleSubmitDetection` after the `await` (App.jsx lines
91-112), applied to the state current at resolution time: on success store the
result and seed chat state; on failure set the error banner; in either case
the `finally` clears `isLoading`. -/
def detectResolve (s : AppState) : DetectionOutcome → AppState
  | .success resp =>
    { seedMessages { s with detectionResult := some resp } resp with isLoading := false }
  | .failure => { s with error := some detectErrorText, isLoading := false }

/-- The Detect button (App.jsx lines 210-218): `onClick={handleSubmitDetection}`
with `disabled={!selectedFile || isLoading}`. -/
def detectButtonEnabled (s : AppState) : Bool :=
  s.selectedFile.isSome && !s.isLoading

/-- A click on the Detect button: dispatches `handleSubmitDetection` only when
the button is enabled. -/
def clickDetect (s : AppState) : AppState × Option DetectionRequest :=
  if detectButtonEnabled s then detectStart s else (s, none)

/-- Synchronous part of `handleSubmitChat` up to the `axios.post` (App.jsx
lines 116-130): guard on `!chatInput.trim()`, append the user message
optimistically, clear the input, set the pending flag, and issue the request
with the bound plant name and the (closure-captured, untrimmed) input. -/
def chatStart (s : AppState) : AppState × Option ChatRequest :=
  if (jsTrim s.chatInput).isEmpty then
    (s, none)
  else
    ({ s with chatMessages := s.chatMessages ++ [{ sender := Sender.user, text := s.chatInput }],
              chatInput := "",
              isChatLoading := true },
     some { plant_name := s.chatPlantName, message := s.chatInput })

/-- Outcome of the chat request: a parsed success body, or a transport/service
error (the `catch` path). -/
inductive ChatOutcome
  | success (resp : ChatResponse)
  | failure
  deriving DecidableEq

/-- Continuation of `handleSubmitChat` after the `await` (App.jsx lines
132-141), applied to the state current at resolution time: on success append a
bot message with `response.data.response || response.data.error`; on failure
append the retry notice; the `finally` clears `isChatLoading`. -/
def chatResolve (s : AppState) : ChatOutcome → AppState
  | .success resp =>
    { s with chatMessages := s.chatMessages ++
               [{ sender := Sender.bot, text := jsOrD resp.response resp.error }],
             isChatLoading := false }
  | .failure =>
    { s with chatMessages := s.chatMessages ++ [{ sender := Sender.bot, text := chatRetryText }],
             isChatLoading := false }

/-- One atomic step of the session: a user action, or the resolution of an
outstanding request (resolutions may interleave with later user actions). -/
inductive Op
  | fileChange (file : Option String)
  | clearSel
  | startDetect
  | resolveDetect (o : DetectionOutcome)
  | startChat
  | resolveChat (o : ChatOutcome)
  | typeChatInput (t : String)
  deriving DecidableEq

/-- Apply one step to the component state. -/
def applyOp (s : AppState) : Op → AppState
  | .fileChange f => handleFileChange s f
  | .clearSel => clearSelection s
  | .startDetect => (detectStart s).1
  | .resolveDetect o => detectResolve s o
  | .startChat => (chatStart s).1
  | .resolveChat o => chatResolve s o
  | .typeChatInput t => { s with chatInput := t }

/-! ### Concrete fixtures -/

/-- A detection response identifying a single plant, "Neem", with no error. -/
def respNeem : DetectionResponse :=
  { annotated_image := "img64", plant_data := some [{ name := "Neem" }] }

/-- A detection response whose only record carries the error flag. -/
def respUnknown : DetectionResponse :=
  { annotated_image := "img64",
    plant_data := some [{ name := "Unknown", error := some "no match" }] }

/-- A detection response whose first record carries the error flag while its
second record ("Neem") does not. -/
def respErrThenOk : DetectionResponse :=
  { annotated_image := "img64",
    plant_data := some [{ name := "Tulsi", error := some "no match" },
                        { name := "Neem" }] }

/-- State after selecting the file "a.jpg" in the initial state. -/
def fileState : AppState := handleFileChange initState (some "a.jpg")

/-- State with a detection in flight for "a.jpg". -/
def loadingState : AppState := (detectStart fileState).1

/-- The run of C1: issue the detection, clear the session, then let the
response arrive and be folded into the (cleared) state. -/
def staleRun : AppState :=
  detectResolve (clearSelection loadingState) (.success respNeem)

/-- State after a completed detection that bound the chat to "Neem". -/
def neemBound : AppState := detectResolve loadingState (.success respNeem)

/-- The run of C5: after binding to "Neem", run a second detection on the same
image that resolves with an error-flagged record. -/
def supersededRun : AppState :=
  detectResolve ((detectStart neemBound).1) (.success respUnknown)

/-! ### Helper lemmas -/

/-- Seeding chat state from a response never touches the stored result. -/
theorem seedMessages_detectionResult (s : AppState) (resp : DetectionResponse) :
    (seedMessages s resp).detectionResult = s.detectionResult := by
  cases hpd : resp.plant_data with
  | none => simp [seedMessages, hpd]
  | some l =>
    cases l with
    | nil => simp [seedMessages, hpd]
    | cons p rest =>
      cases he : strTruthy p.error with
      | true => simp [seedMessages, hpd, he]
      | false => simp [seedMessages, hpd, he]

/-- A successfully resolved detection always stores its response, whatever the
state it lands on. -/
theorem detectResolve_success_result (s : AppState) (resp : DetectionResponse) :
    (detectResolve s (.success resp)).detectionResult = some resp := by
  show (seedMessages { s with detectionResult := some resp } resp).detectionResult = some resp
  rw [seedMessages_detectionResult]

/-! ### Claim theorems -/

/-- Claim C1, counterexample: in the run requestDetection → clearSession →
successful resolution, the final state is not the post-clear state — the
detection result is stored, the chat is bound to "Neem" and the greeting is
seeded; there is no generation guard. -/
theorem stale_detect_response_applied :
    staleRun.detectionResult = some respNeem ∧
    staleRun.chatPlantName = "Neem" ∧
    staleRun.chatMessages = [{ sender := Sender.bot, text := greetingText "Neem" }] ∧
    (clearSelection loadingState).detectionResult = none ∧
    staleRun ≠ clearSelection loadingState := by
  refine ⟨rfl, rfl, rfl, rfl, ?_⟩
  decide

/-- Claim C1, amended: there is no generation guard — a detection response is
applied to whatever session state is current when it resolves, so when a
request was issued and `clearSelection` ran before the resolution, the final
state stores the DetectionResult and differs from the post-clear state. -/
theorem detect_resolve_ignores_generation (s : AppState) (resp : DetectionResponse)
    (h : (detectStart s).2.isSome = true) :
    (detectResolve (clearSelection (detectStart s).1) (.success resp)).detectionResult
        = some resp ∧
    detectResolve (clearSelection (detectStart s).1) (.success resp) ≠
      clearSelection (detectStart s).1 := by
  refine ⟨detectResolve_success_result _ _, fun heq => ?_⟩
  have h2 := congrArg AppState.detectionResult heq
  rw [detectResolve_success_result] at h2
  simp [clearSelection, clearResults] at h2

/-- Witness for C1's amended theorem at the concrete run of the claim. -/
theorem detect_resolve_ignores_generation_witness :
    (detectStart fileState).2.isSome = true ∧
    (detectResolve (clearSelection (detectStart fileState).1)
        (.success respNeem)).detectionResult = some respNeem :=
  ⟨rfl, (detect_resolve_ignores_generation fileState respNeem rfl).1⟩

/-- Claim C2, counterexample: with a detection already in flight for "a.jpg"
(`isLoading` set), a second direct call to `handleSubmitDetection` issues a
second, duplicate request for the same file. -/
theorem second_detect_call_issues_duplicate :
    loadingState.isLoading = true ∧
    loadingState.selectedFile = some "a.jpg" ∧
    (detectStart loadingState).2 = some { file := "a.jpg" } :=
  ⟨rfl, rfl, rfl⟩

/-- Claim C2, amended: `handleSubmitDetection` itself has no in-flight check;
duplicate suppression exists only at the UI level — the Detect button is
disabled while `isLoading`, so a second button click during a detection is a
no-op and issues no request. -/
theorem click_detect_while_loading_noop (s : AppState) (h : s.isLoading = true) :
    clickDetect s = (s, none) := by
  simp [clickDetect, detectButtonEnabled, h]

/-- Witness for C2's amended theorem in the in-flight state. -/
theorem click_detect_while_loading_noop_witness :
    loadingState.isLoading = true ∧ clickDetect loadingState = (loadingState, none) :=
  ⟨rfl, click_detect_while_loading_noop loadingState rfl⟩

/-- Claim C4, counterexample: selecting a new file while a detection is in
flight does not clear the in-flight loading indicator — `isLoading` stays
true after `handleFileChange`. -/
theorem file_change_keeps_loading_flag :
    loadingState.isLoading = true ∧
    (handleFileChange loadingState (some "b.jpg")).isLoading = true :=
  ⟨rfl, rfl⟩

/-- Claim C4, amended: selecting a new image replaces the ImageSource, discards
the previous DetectionResult, error and ChatSession (transcript cleared, bound
plant name reset to the default) and makes no network call (the handler issues
no request), but the loading flags are left unchanged rather than cleared; and
any two consecutive selections retain only the most recent ImageSource. -/
theorem file_change_spec (s : AppState) (f g : String) :
    handleFileChange s (some f) =
      { s with selectedFile := some f, previewUrl := some (objectURL f),
               detectionResult := none, error := none, chatMessages := [],
               chatPlantName := defaultPlantName } ∧
    handleFileChange (handleFileChange s (some f)) (some g) =
      handleFileChange s (some g) :=
  ⟨rfl, rfl⟩

/-- Claim C9: a file-change event carrying no file (the user cancelled the
dialog) leaves the entire component state unchanged. -/
theorem file_change_no_file_noop (s : AppState) : handleFileChange s none = s := rfl

/-- Claim C3, counterexample: (i) the success handler examines only
`plant_data[0]` — with a first record flagged as error and a second, non-error
record named "Neem", the chat is not bound to "Neem" and the could-not-identify
message is seeded; (ii) in that branch the bound name is merely left unchanged,
so a previously bound "Neem" survives instead of resetting to the default. -/
theorem detect_binding_checks_first_record_only :
    ((detectResolve initState (.success respErrThenOk)).chatPlantName = defaultPlantName ∧
     (detectResolve initState (.success respErrThenOk)).chatPlantName ≠ "Neem" ∧
     (detectResolve initState (.success respErrThenOk)).chatMessages =
       [{ sender := Sender.bot, text := noIdentifyText }]) ∧
    (neemBound.chatPlantName = "Neem" ∧
     (detectResolve neemBound (.success respUnknown)).chatPlantName = "Neem" ∧
     (detectResolve neemBound (.success respUnknown)).chatPlantName ≠ defaultPlantName) := by
  refine ⟨⟨rfl, ?_, rfl⟩, rfl, rfl, ?_⟩ <;> decide

/-- Claim C3, amended: on a successful detection the response is stored and
loading ends; if `plant_data` is non-empty and its first record has no truthy
error flag, the chat is bound to that record's name (default placeholder if
the name is empty) and the transcript is seeded with exactly the greeting
mentioning that name; otherwise the transcript is seeded with the
could-not-identify message and the bound name is left unchanged. -/
theorem detect_success_binding (s : AppState) (resp : DetectionResponse) :
    (detectResolve s (.success resp)).detectionResult = some resp ∧
    (detectResolve s (.success resp)).isLoading = false ∧
    (∀ p rest, resp.plant_data = some (p :: rest) → strTruthy p.error = false →
      (detectResolve s (.success resp)).chatPlantName = plantNameOf p ∧
      (detectResolve s (.success resp)).chatMessages =
        [{ sender := Sender.bot, text := greetingText (plantNameOf p) }]) ∧
    (∀ p rest, resp.plant_data = some (p :: rest) → strTruthy p.error = true →
      (detectResolve s (.success resp)).chatPlantName = s.chatPlantName ∧
      (detectResolve s (.success resp)).chatMessages =
        [{ sender := Sender.bot, text := noIdentifyText }]) ∧
    ((resp.plant_data = none ∨ resp.plant_data = some []) →
      (detectResolve s (.success resp)).chatPlantName = s.chatPlantName ∧
      (detectResolve s (.success resp)).chatMessages =
        [{ sender := Sender.bot, text := noIdentifyText }]) := by
  refine ⟨detectResolve_success_result s resp, rfl, ?_, ?_, ?_⟩
  · intro p rest hd he
    constructor <;> simp [detectResolve, seedMessages, plantNameOf, hd, he]
  · intro p rest hd he
    constructor <;> simp [detectResolve, seedMessages, hd, he]
  · rintro (hd | hd) <;> exact ⟨by simp [detectResolve, seedMessages, hd],
      by simp [detectResolve, seedMessages, hd]⟩

/-- Witness for C3's amended theorem on the "Neem" response. -/
theorem detect_success_binding_witness :
    (respNeem.plant_data = some [{ name := "Neem" }] ∧
     strTruthy ({ name := "Neem" } : PlantRecord).error = false) ∧
    (detectResolve initState (.success respNeem)).chatPlantName =
      plantNameOf { name := "Neem" } :=
  ⟨⟨rfl, rfl⟩,
   ((detect_success_binding initState respNeem).2.2.1 { name := "Neem" } [] rfl rfl).1⟩

/-- Claim C5, counterexample: after binding to "Neem", a later successful
detection on the same image resolves with an error-flagged record; the stored
(most recent successful) DetectionResult is the new one, yet the bound plant
name still references "Neem" from the superseded detection. -/
theorem bound_name_survives_superseding_detection :
    supersededRun.detectionResult = some respUnknown ∧
    respUnknown.plant_data = some [{ name := "Unknown", error := some "no match" }] ∧
    supersededRun.chatPlantName = "Neem" ∧
    supersededRun.chatPlantName ≠ "Unknown" := by
  refine ⟨rfl, rfl, rfl, ?_⟩
  decide

/-- Claim C5, amended: across every operation the bound plant name is left
unchanged, reset to the default placeholder, or set from the non-error first
record of the detection response stored in that same step; it is never rebound
by a detection that resolves without an identifiable first record, so it can
keep referencing a superseded detection's plant. -/
theorem chat_plant_name_update_characterization (s : AppState) (op : Op) :
    (applyOp s op).chatPlantName = s.chatPlantName ∨
    (applyOp s op).chatPlantName = defaultPlantName ∨
    (∃ resp p rest, (applyOp s op).detectionResult = some resp ∧
      resp.plant_data = some (p :: rest) ∧ strTruthy p.error = false ∧
      (applyOp s op).chatPlantName = plantNameOf p) := by
  cases op with
  | fileChange f =>
    cases f with
    | none => exact Or.inl rfl
    | some g => exact Or.inr (Or.inl rfl)
  | clearSel => exact Or.inr (Or.inl rfl)
  | startDetect =>
    left
    show (detectStart s).1.chatPlantName = s.chatPlantName
    unfold detectStart
    split <;> rfl
  | resolveDetect o =>
    cases o with
    | failure => exact Or.inl rfl
    | success resp =>
      cases hd : resp.plant_data with
      | none => left; simp [applyOp, detectResolve, seedMessages, hd]
      | some l =>
        cases l with
        | nil => left; simp [applyOp, detectResolve, seedMessages, hd]
        | cons p rest =>
          cases he : strTruthy p.error with
          | true => left; simp [applyOp, detectResolve, seedMessages, hd, he]
          | false =>
            right; right
            refine ⟨resp, p, rest, detectResolve_success_result s resp, hd, he, ?_⟩
            simp [applyOp, detectResolve, seedMessages, plantNameOf, hd, he]
  | startChat =>
    left
    show (chatStart s).1.chatPlantName = s.chatPlantName
    unfold chatStart
    split <;> rfl
  | resolveChat o => cases o <;> exact Or.inl rfl
  | typeChatInput t => exact Or.inl rfl

/-- Claim C6: for input that is non-blank after trimming with no chat response
pending, the user message is appended already at issue time, the request
carries the bound plant name and the original message text, the pending flag
is set; a success resolution appends a bot message with the returned text and
a failure resolution appends the generic retry notice, the pending flag being
cleared in either case. -/
theorem send_chat_nonblank_spec (s : AppState)
    (h : (jsTrim s.chatInput).isEmpty = false) (hp : s.isChatLoading = false) :
    (chatStart s).1.chatMessages =
      s.chatMessages ++ [{ sender := Sender.user, text := s.chatInput }] ∧
    (chatStart s).2 = some { plant_name := s.chatPlantName, message := s.chatInput } ∧
    (chatStart s).1.isChatLoading = true ∧
    (∀ t e, t.isEmpty = false →
      chatResolve (chatStart s).1 (.success { response := some t, error := e }) =
        { (chatStart s).1 with
            chatMessages := (chatStart s).1.chatMessages ++ [{ sender := Sender.bot, text := t }],
            isChatLoading := false }) ∧
    chatResolve (chatStart s).1 .failure =
      { (chatStart s).1 with
          chatMessages := (chatStart s).1.chatMessages ++
            [{ sender := Sender.bot, text := chatRetryText }],
          isChatLoading := false } := by
  refine ⟨?_, ?_, ?_, ?_, ?_⟩
  · simp [chatStart, h]
  · simp [chatStart, h]
  · simp [chatStart, h]
  · intro t e ht
    simp [chatStart, chatResolve, jsOrD, h, ht]
  · simp [chatStart, chatResolve, h]

/-- Witness for C6 in the "Neem"-bound state with a typed question. -/
theorem send_chat_nonblank_spec_witness :
    ((jsTrim ({ neemBound with chatInput := "How do I grow it?" } : AppState).chatInput).isEmpty
        = false ∧
     ({ neemBound with chatInput := "How do I grow it?" } : AppState).isChatLoading = false) ∧
    (chatStart { neemBound with chatInput := "How do I grow it?" }).2 =
      some { plant_name := "Neem", message := "How do I grow it?" } :=
  ⟨⟨rfl, rfl⟩,
   (send_chat_nonblank_spec { neemBound with chatInput := "How do I grow it?" } rfl rfl).2.1⟩

/-- Claim C7: input that is blank after trimming issues no chat request and
leaves the entire state — the transcript included — unchanged. -/
theorem send_chat_blank_noop (s : AppState) (h : (jsTrim s.chatInput).isEmpty = true) :
    chatStart s = (s, none) := by
  simp [chatStart, h]

/-- Witness for C7 on whitespace-only input. -/
theorem send_chat_blank_noop_witness :
    (jsTrim ({ initState with chatInput := "   " } : AppState).chatInput).isEmpty = true ∧
    chatStart { initState with chatInput := "   " } =
      ({ initState with chatInput := "   " }, none) :=
  ⟨rfl, send_chat_blank_noop { initState with chatInput := "   " } rfl⟩

/-- Claim C10: a successful chat body whose `response` field is absent or empty
and whose `error` field is a string yields a bot message carrying that error
string (not the retry notice), and the pending flag is still cleared. -/
theorem chat_error_body_shown (s : AppState) (r : Option String) (e : String)
    (h : r = none ∨ r = some "") :
    chatResolve s (.success { response := r, error := some e }) =
      { s with chatMessages := s.chatMessages ++ [{ sender := Sender.bot, text := e }],
               isChatLoading := false } := by
  rcases h with h | h <;> subst h <;>
    simp [chatResolve, jsOrD, show "".isEmpty = true from rfl]

/-- Witness for C10 with an absent `response` field. -/
theorem chat_error_body_shown_witness :
    ((none : Option String) = none ∨ (none : Option String) = some "") ∧
    chatResolve initState (.success { response := none, error := some "model overloaded" }) =
      { initState with
          chatMessages := [{ sender := Sender.bot, text := "model overloaded" }],
          isChatLoading := false } :=
  ⟨Or.inl rfl, chat_error_body_shown initState none "model overloaded" (Or.inl rfl)⟩

/-! ### Camera capture

The camera-enabled variant of the component lives in
`src/frontend/tailwind.config.js` (an `App.jsx` variant appended after the
config): `startCamera` (lines 86-96) acquires the stream via `getUserMedia`,
`capturePhoto` (lines 104-126) captures the frame and stops the tracks, and
its `clearSelection` (lines 78-83) is the same as the upload-only file's and
touches no camera field.  The camera fields of that variant extend the shared
`AppState` here. -/

/-- A media stream acquired by `getUserMedia`, with the count of
`getTracks().forEach(track => track.stop())` rounds applied to it. -/
structure MediaStream where
  stopCount : Nat
  deriving DecidableEq

/-- A stream freshly returned by `getUserMedia`, not yet stopped. -/
def acquiredStream : MediaStream := { stopCount := 0 }

/-- `cameraStream.getTracks().forEach(track => track.stop())` (line 122):
one stop round over all tracks of the stream. -/
def stopAllTracks (m : MediaStream) : MediaStream :=
  { m with stopCount := m.stopCount + 1 }

/-- State of the camera-enabled variant: the shared session fields plus the
camera `useState` fields (lines 40-44); `videoReady`/`canvasReady` model
whether `videoRef.current`/`canvasRef.current` are mounted. -/
structure CamAppState where
  app : AppState := {}
  cameraOpen : Bool := false
  cameraError : Option String := none
  cameraStream : Option MediaStream := none
  videoReady : Bool := true
  canvasReady : Bool := true
  deriving DecidableEq

/-- The camera-permission error message (line 94). -/
def cameraErrorText : String :=
  "Unable to access camera. Please allow permissions."

/-- Outcome of the `getUserMedia` call in `startCamera`: a granted stream, or
a rejection (the `catch` path). -/
inductive CameraOutcome
  | granted
  | denied
  deriving DecidableEq

/-- `startCamera` (lines 86-96): on success store the fresh stream, open the
camera panel and clear the camera error; on failure set the camera error. -/
def startCamera (s : CamAppState) : CameraOutcome → CamAppState
  | .granted =>
    { s with cameraStream := some acquiredStream, cameraOpen := true, cameraError := none }
  | .denied => { s with cameraError := some cameraErrorText }

/-- The file name given to a captured frame (line 115). -/
def capturedFileName : String := "captured_image.jpg"

/-- `capturePhoto` (lines 104-126): an early return if the video or canvas ref
is unmounted; otherwise the `toBlob` callback makes the frame the selected
file (with a fresh object URL, clearing old results), the held stream — if
any — gets one stop round over its tracks, and the camera closes, dropping
the stream reference.  The detached stream object is returned alongside the
new state so its final stop count stays observable. -/
def capturePhoto (s : CamAppState) : CamAppState × Option MediaStream :=
  if s.videoReady && s.canvasReady then
    ({ s with
        app := clearResults { s.app with selectedFile := some capturedFileName,
                                         previewUrl := some (objectURL capturedFileName) },
        cameraOpen := false,
        cameraStream := none },
     match s.cameraStream with
     | some m => some (stopAllTracks m)
     | none => none)
  else (s, none)

/-- `clearSelection` of the camera variant (lines 78-83): identical to the
upload-only file's `clearSelection` on the session fields, and it touches no
camera field — in particular not `cameraStream`. -/
def clearSelectionCam (s : CamAppState) : CamAppState :=
  { s with app := clearSelection s.app }

/-- The run refuting C8: open the camera successfully, then tear the session
down with `clearSession` without capturing. -/
def camTeardownRun : CamAppState :=
  clearSelectionCam (startCamera {} .granted)

/-- Claim C8, counterexample: after the camera is opened and the session is
immediately torn down by `clearSession`, the acquired stream is still held
with zero stop rounds — it was never released, refuting release on every exit
path (and the code offers no explicit cancel control at all: the only camera
action is Capture Photo). -/
theorem camera_stream_not_released_on_teardown :
    (startCamera {} .granted).cameraStream = some { stopCount := 0 } ∧
    camTeardownRun.cameraStream = some { stopCount := 0 } ∧
    camTeardownRun.cameraStream ≠ some (stopAllTracks acquiredStream) := by
  refine ⟨rfl, rfl, ?_⟩
  decide

/-- Claim C8, amended: the media stream is stopped exactly once on successful
capture only — `capturePhoto` with mounted refs applies one stop round to the
held stream and drops the reference, and a `clearSession` immediately after
finds no stream to touch, so the count stays at one stop round; but
`clearSession` never modifies a held `cameraStream` in any state, so on
session teardown without capture (and there is no explicit cancel control in
the code) the stream is never released. -/
theorem camera_release_only_on_capture (s : CamAppState) (m : MediaStream)
    (h1 : s.videoReady = true) (h2 : s.canvasReady = true)
    (hm : s.cameraStream = some m) :
    (capturePhoto s).2 = some { stopCount := m.stopCount + 1 } ∧
    (capturePhoto s).1.cameraStream = none ∧
    (clearSelectionCam (capturePhoto s).1).cameraStream = none ∧
    (∀ t : CamAppState, (clearSelectionCam t).cameraStream = t.cameraStream) := by
  refine ⟨?_, ?_, ?_, fun t => rfl⟩ <;>
    simp [capturePhoto, clearSelectionCam, stopAllTracks, h1, h2, hm]

/-- Witness for C8's amended theorem: capturing right after a granted
`startCamera` leaves the detached stream stopped exactly once. -/
theorem camera_release_only_on_capture_witness :
    ((startCamera {} .granted).videoReady = true ∧
     (startCamera {} .granted).canvasReady = true ∧
     (startCamera {} .granted).cameraStream = some acquiredStream) ∧
    (capturePhoto (startCamera {} .granted)).2 = some { stopCount := 1 } :=
  ⟨⟨rfl, rfl, rfl⟩,
   (camera_release_only_on_capture (startCamera {} .granted) acquiredStream rfl rfl rfl).1⟩

end Plant
